import Mathlib

/-!
# Verification of the HBL Unified Checkout session controller

Shallow embedding of `src/HblUnifiedCheckout.tsx` (the first, primary variant
of the component; where a claim cites the navigate variant, its
`initializeCheckout` preamble is embedded separately as
`initializeCheckoutNav`).

Strings are modelled as `List Char`.  JavaScript `undefined` is modelled as
`Option.none`; a thrown JS exception in an expression is modelled with
`Except Unit`.
-/

set_option maxRecDepth 10000

/-! ## JSON values and `JSON.parse`

A small executable model of the JS `JSON.parse` used both by
`getSdkMetadata` (on the decoded token payload) and by the message
listener (on the stripped `cybs-telgram` message body).

Limitations kept deliberately (each makes the parser *fail* where real
`JSON.parse` would succeed, never the other way around): numbers are
restricted to integers without fraction/exponent, and `\u` escapes that
denote UTF-16 surrogates are rejected.  No claim in this development
depends on such inputs.
-/

inductive Json where
  | null : Json
  | bool (b : Bool) : Json
  | num (n : Int) : Json
  | str (s : List Char) : Json
  | arr (xs : List Json) : Json
  | obj (fields : List (List Char × Json)) : Json

def lbrace : Char := Char.ofNat 123
def rbrace : Char := Char.ofNat 125

def isWsChar (c : Char) : Bool :=
  c = ' ' || c = '\t' || c = '\n' || c = '\r'

def skipWs : List Char → List Char
  | [] => []
  | c :: rest => if isWsChar c then skipWs rest else c :: rest

def hexVal (c : Char) : Option Nat :=
  if 48 ≤ c.toNat ∧ c.toNat ≤ 57 then some (c.toNat - 48)
  else if 97 ≤ c.toNat ∧ c.toNat ≤ 102 then some (c.toNat - 97 + 10)
  else if 65 ≤ c.toNat ∧ c.toNat ≤ 70 then some (c.toNat - 65 + 10)
  else none

/-- Parse the remainder of a JSON string literal, after the opening quote:
returns the string contents and the input following the closing quote. -/
def parseStrRest : List Char → Option (List Char × List Char)
  | [] => none
  | '"' :: rest => some ([], rest)
  | '\\' :: '"' :: r => (parseStrRest r).map (fun p => ('"' :: p.1, p.2))
  | '\\' :: '\\' :: r => (parseStrRest r).map (fun p => ('\\' :: p.1, p.2))
  | '\\' :: '/' :: r => (parseStrRest r).map (fun p => ('/' :: p.1, p.2))
  | '\\' :: 'n' :: r => (parseStrRest r).map (fun p => ('\n' :: p.1, p.2))
  | '\\' :: 't' :: r => (parseStrRest r).map (fun p => ('\t' :: p.1, p.2))
  | '\\' :: 'r' :: r => (parseStrRest r).map (fun p => ('\r' :: p.1, p.2))
  | '\\' :: 'b' :: r => (parseStrRest r).map (fun p => (Char.ofNat 8 :: p.1, p.2))
  | '\\' :: 'f' :: r => (parseStrRest r).map (fun p => (Char.ofNat 12 :: p.1, p.2))
  | '\\' :: 'u' :: a :: b :: c :: d :: r =>
    match hexVal a, hexVal b, hexVal c, hexVal d with
    | some ha, some hb, some hc, some hd =>
      let n := ((ha * 16 + hb) * 16 + hc) * 16 + hd
      if n < 0xd800 ∨ 0xe000 ≤ n then
        (parseStrRest r).map (fun p => (Char.ofNat n :: p.1, p.2))
      else none
    | _, _, _, _ => none
  | '\\' :: _ => none
  | c :: r =>
    if 32 ≤ c.toNat then (parseStrRest r).map (fun p => (c :: p.1, p.2))
    else none

def isDigit (c : Char) : Bool := 48 ≤ c.toNat ∧ c.toNat ≤ 57

def takeDigits : List Char → List Char × List Char
  | [] => ([], [])
  | c :: rest =>
    if isDigit c then
      let p := takeDigits rest
      (c :: p.1, p.2)
    else ([], c :: rest)

def digitsToNat (ds : List Char) : Nat :=
  ds.foldl (fun acc c => acc * 10 + (c.toNat - 48)) 0

/-- Parse a JSON integer literal (optionally negative).  Fractions and
exponents are not supported (see module comment). -/
def parseNum (s : List Char) : Option (Json × List Char) :=
  let (neg, s') := match s with
    | '-' :: r => (true, r)
    | _ => (false, s)
  match takeDigits s' with
  | ([], _) => none
  | (ds, rest) =>
    -- JSON forbids leading zeros
    match ds with
    | '0' :: _ :: _ => none
    | _ =>
      match rest with
      | '.' :: _ => none
      | 'e' :: _ => none
      | 'E' :: _ => none
      | _ =>
        let n : Int := Int.ofNat (digitsToNat ds)
        some (.num (if neg then -n else n), rest)

mutual

def parseVal : Nat → List Char → Option (Json × List Char)
  | 0, _ => none
  | Nat.succ fuel, s =>
    match skipWs s with
    | 'n' :: 'u' :: 'l' :: 'l' :: r => some (.null, r)
    | 't' :: 'r' :: 'u' :: 'e' :: r => some (.bool true, r)
    | 'f' :: 'a' :: 'l' :: 's' :: 'e' :: r => some (.bool false, r)
    | '"' :: r => (parseStrRest r).map (fun p => (.str p.1, p.2))
    | '[' :: r =>
      match skipWs r with
      | ']' :: r2 => some (.arr [], r2)
      | r2 => (parseElems fuel r2).map (fun p => (.arr p.1, p.2))
    | c :: r =>
      if c = lbrace then
        match skipWs r with
        | c2 :: r2 =>
          if c2 = rbrace then some (.obj [], r2)
          else (parseMembs fuel (c2 :: r2)).map (fun p => (.obj p.1, p.2))
        | [] => none
      else parseNum (c :: r)
    | [] => none

def parseElems : Nat → List Char → Option (List Json × List Char)
  | 0, _ => none
  | Nat.succ fuel, s =>
    match parseVal fuel s with
    | none => none
    | some (v, r) =>
      match skipWs r with
      | ',' :: r2 => (parseElems fuel r2).map (fun p => (v :: p.1, p.2))
      | ']' :: r2 => some ([v], r2)
      | _ => none

def parseMembs : Nat → List Char → Option (List (List Char × Json) × List Char)
  | 0, _ => none
  | Nat.succ fuel, s =>
    match skipWs s with
    | '"' :: r =>
      match parseStrRest r with
      | none => none
      | some (k, r1) =>
        match skipWs r1 with
        | ':' :: r2 =>
          match parseVal fuel r2 with
          | none => none
          | some (v, r3) =>
            match skipWs r3 with
            | ',' :: r4 => (parseMembs fuel r4).map (fun p => ((k, v) :: p.1, p.2))
            | c :: r4 =>
              if c = rbrace then some ([(k, v)], r4) else none
            | [] => none
        | _ => none
    | _ => none

end

/-- `JSON.parse`: parse a full JSON document; trailing whitespace allowed,
any other trailing content is an error. -/
def parseJson (s : List Char) : Option Json :=
  match parseVal (s.length + 1) s with
  | some (v, rest) => if (skipWs rest).isEmpty then some v else none
  | none => none

/-! ## `window.atob` (forgiving base64 decode) -/

def b64Val (c : Char) : Option Nat :=
  if 65 ≤ c.toNat ∧ c.toNat ≤ 90 then some (c.toNat - 65)
  else if 97 ≤ c.toNat ∧ c.toNat ≤ 122 then some (c.toNat - 97 + 26)
  else if 48 ≤ c.toNat ∧ c.toNat ≤ 57 then some (c.toNat - 48 + 52)
  else if c = '+' then some 62
  else if c = '/' then some 63
  else none

def dropTrailingEq (s : List Char) : List Char :=
  match s.reverse with
  | '=' :: '=' :: r => r.reverse
  | '=' :: r => r.reverse
  | _ => s

/-- WHATWG forgiving-base64 normalization: after whitespace removal, strip
up to two trailing `=` when the length is a multiple of four; reject a
remaining length of 1 mod 4 and any character outside the alphabet. -/
def b64Normalize (s : List Char) : Option (List Char) :=
  let s' := if s.length % 4 = 0 then dropTrailingEq s else s
  if s'.length % 4 = 1 then none
  else if s'.any (fun c => (b64Val c).isNone) then none
  else some s'

def b64DecodeCore : List Char → Option (List Nat)
  | [] => some []
  | [c1, c2] =>
    match b64Val c1, b64Val c2 with
    | some a, some b => some [a * 4 + b / 16]
    | _, _ => none
  | [c1, c2, c3] =>
    match b64Val c1, b64Val c2, b64Val c3 with
    | some a, some b, some c => some [a * 4 + b / 16, (b % 16) * 16 + c / 4]
    | _, _, _ => none
  | c1 :: c2 :: c3 :: c4 :: rest =>
    match b64Val c1, b64Val c2, b64Val c3, b64Val c4 with
    | some a, some b, some c, some d =>
      (b64DecodeCore rest).map
        (fun bs => (a * 4 + b / 16) :: ((b % 16) * 16 + c / 4) :: ((c % 4) * 64 + d) :: bs)
    | _, _, _, _ => none
  | [_] => none

/-- `window.atob`: decode base64 to a latin-1 string; `none` models the
`InvalidCharacterError` throw. -/
def atobL (s : List Char) : Option (List Char) :=
  match b64Normalize (s.filter (fun c => !isWsChar c)) with
  | none => none
  | some s' =>
    match b64DecodeCore s' with
    | none => none
    | some bytes => some (bytes.map Char.ofNat)

/-! ## JS property/index access on `any` values

`none` models `undefined`.  Accessing a property of `undefined` or `null`
throws (`Except.error`); on other primitives it yields `undefined`. -/

abbrev JsVal := Option Json

def objLookup (fs : List (List Char × Json)) (k : List Char) : Option Json :=
  match fs.reverse.find? (fun p => p.1 == k) with
  | some p => some p.2
  | none => none

def jsGetProp (v : JsVal) (k : List Char) : Except Unit JsVal :=
  match v with
  | none => .error ()
  | some .null => .error ()
  | some (.obj fs) => .ok (objLookup fs k)
  | some _ => .ok none

def jsIndex (v : JsVal) (i : Nat) : Except Unit JsVal :=
  match v with
  | none => .error ()
  | some .null => .error ()
  | some (.arr xs) => .ok xs[i]?
  | some (.str s) => .ok ((s[i]?).map (fun c => Json.str [c]))
  | some _ => .ok none

/-! ## `getSdkMetadata` (TokenDecoder) -/

/-- `SdkMetadata`: the TS interface declares both fields `string`, but the
payload is accessed as `any`, so at runtime either field can be any JS
value including `undefined` (modelled as `none`). -/
structure SdkMetadata where
  url : JsVal
  integrity : JsVal

/-- `token.split('.')` with JS semantics (keeps empty segments;
`''.split('.') = ['']`). -/
def splitDot : List Char → List (List Char)
  | [] => [[]]
  | '.' :: rest => [] :: splitDot rest
  | c :: rest =>
    match splitDot rest with
    | seg :: segs => (c :: seg) :: segs
    | [] => [[c]]

/-- The two global-regex replaces (dash to plus, underscore to slash)
applied characterwise. -/
def urlSafeToStd (c : Char) : Char :=
  if c = '-' then '+' else if c = '_' then '/' else c

/--
`getSdkMetadata` from `HblUnifiedCheckout.tsx` (identical in all variants):

* `token.split('.')[1]` — a missing second segment gives `undefined`, and
  the subsequent `.replace` call on `undefined` throws, landing in the
  `catch` which returns `null` (modelled: `none`);
* alphabet normalization, `window.atob`, `JSON.parse` — any throw lands in
  the same `catch`;
* `payload.ctx[0].data.clientLibrary` / `...clientLibraryIntegrity` — a
  missing *ancestor* (`ctx`, `ctx[0]`, `data`) throws and yields `null`,
  but a present `data` object with absent leaf fields yields a record
  whose fields are `undefined`: no presence or non-emptiness check exists.
-/
def getSdkMetadata (token : List Char) : Option SdkMetadata :=
  match (splitDot token)[1]? with
  | none => none
  | some seg =>
    match atobL (seg.map urlSafeToStd) with
    | none => none
    | some decoded =>
      match parseJson decoded with
      | none => none
      | some payload =>
        match (do
            let ctx ← jsGetProp (some payload) "ctx".data
            let c0 ← jsIndex ctx 0
            let d ← jsGetProp c0 "data".data
            let lib ← jsGetProp d "clientLibrary".data
            let integ ← jsGetProp d "clientLibraryIntegrity".data
            pure (lib, integ) : Except Unit (JsVal × JsVal)) with
        | .error _ => none
        | .ok (lib, integ) => some ⟨lib, integ⟩

/-! ## Controller state

One record holds the React component's state hooks (`jwt`, `status`,
`isLoaded`, `isSuccess`, `isError`), its refs (`sdkRef`, and `acceptRef`
used only by the navigate variant), the relevant page state
(`document.head` script children, the payment container), the
registration state of the cross-context message listener, plus two ghost
observers (`acceptCalled`: whether `window.Accept` was invoked this
session, `decodeAttempts`: how many times `getSdkMetadata` ran) and a
`phase` recording which asynchronous continuation is still pending (a
script element fires `onload` xor `onerror` once; the SDK completion
promise settles once). -/

structure ScriptEl where
  id : Nat
  src : JsVal
  integrity : JsVal

inductive Phase where
  | idleP | scriptPending | awaiting | settled
deriving DecidableEq

structure CtrlState where
  jwt : List Char
  status : List Char
  isLoaded : Bool
  isSuccess : Bool
  isError : Bool
  sdkRef : Option Nat
  acceptRef : Bool
  head : List ScriptEl
  nextId : Nat
  containerEmpty : Bool
  listener : Bool
  phase : Phase
  acceptCalled : Bool
  decodeAttempts : Nat

def waitingStatus : List Char := "Waiting for JWT input...".data
def pasteErrStatus : List Char := "Error: Please paste a JWT first.".data
def invalidJwtStatus : List Char :=
  "Error: Invalid JWT structure. Could not extract SDK metadata.".data
def loadingStatus : List Char := "Loading Secure SDK...".data
def readyStatus : List Char := "Ready. Loading Manual Entry Form...".data
def successStatus : List Char := "âœ… Success! Transient Token received.".data
def loadFailStatus : List Char := "Error: SDK failed to load.".data
def errPrefix : List Char := "Error: ".data
def cancelReasonCode : List Char := "COMPLETE_TRANSACTION_CANCELLED".data
def telegramMarker : List Char := "/*cybs-telgram*/".data
def closeAppSource : List Char := "mce:App::closeApp".data
def closeEventTag : List Char := "CLOSE".data
def defaultInitFailMsg : List Char := "Initialization failed".data

/-- JS `String.prototype.trim` restricted to the whitespace characters
that can occur in our token alphabet. -/
def trimWs (s : List Char) : List Char :=
  ((s.dropWhile isWsChar).reverse.dropWhile isWsChar).reverse

/-- JS `String.prototype.includes` for a literal pattern. -/
def containsSub : List Char → List Char → Bool
  | [], pat => pat.isEmpty
  | c :: rest, pat => List.isPrefixOf pat (c :: rest) || containsSub rest pat

/-- JS `String.prototype.replace` with a literal pattern and an empty
replacement: removes the first occurrence, if any. -/
def replaceFirst : List Char → List Char → List Char
  | [], _ => []
  | c :: rest, pat =>
    if List.isPrefixOf pat (c :: rest) then (c :: rest).drop pat.length
    else c :: replaceFirst rest pat

/-- `initializeCheckout`, synchronous part, primary variant: the blank-jwt
guard, the decode guard, and on success the status reset, creation and
injection of the script element (with the decoded `src`/`integrity`) and
`setIsLoaded(true)`.  The `onload`/`onerror` continuations are delivered
later as `Event`s (see `step`). -/
def initializeCheckout (s : CtrlState) : CtrlState :=
  if (trimWs s.jwt).isEmpty then
    { s with isError := true, isSuccess := false, status := pasteErrStatus }
  else
    let s := { s with decodeAttempts := s.decodeAttempts + 1 }
    match getSdkMetadata s.jwt with
    | none => { s with isError := true, isSuccess := false, status := invalidJwtStatus }
    | some m =>
      { s with isError := false, isSuccess := false, status := loadingStatus,
               head := s.head ++ [⟨s.nextId, m.url, m.integrity⟩],
               sdkRef := some s.nextId, nextId := s.nextId + 1,
               isLoaded := true, phase := .scriptPending }

/-- A cross-context message (`MessageEvent.data`): a string, an object
(with or without a `source` property), or a null/undefined datum. -/
inductive MsgData where
  | strMsg (d : List Char)
  | objMsg (source : Option (List Char))
  | nullMsg

/-- A rejection value caught by the `catch (err)` block: whether it is an
`Error` instance, its `message`, and its optional `reason` property. -/
structure JsErr where
  isErrorInstance : Bool
  message : List Char
  reason : Option (List Char)

def jsErrMessage (e : JsErr) : List Char :=
  if e.isErrorInstance then e.message else defaultInitFailMsg

inductive Event where
  | scriptLoad
  | scriptError
  | promiseResolve (tok : List Char)
  | promiseReject (e : JsErr)
  | message (m : MsgData)

/-- Check 1 of the listener: a string datum containing the
`cybs-telgram` marker whose stripped body parses as JSON with
`parsed.event === 'CLOSE'`.  A parse failure, a throw while reading
`.event` (null body), or a non-matching event tag is swallowed. -/
def telegramCloseDetected (d : List Char) : Bool :=
  if containsSub d telegramMarker then
    match parseJson (replaceFirst d telegramMarker) with
    | some p =>
      match jsGetProp (some p) "event".data with
      | .ok (some (.str ev)) => ev = closeEventTag
      | _ => false
    | none => false
  else false

/-- Check 2 of the listener: `event.data && event.data.source ===
'mce:App::closeApp'`.  A string datum has no `source` property; a
null/undefined datum is falsy and skips the check. -/
def closeAppDetected (m : MsgData) : Bool :=
  match m with
  | .objMsg (some src) => src = closeAppSource
  | _ => false

/-- The effect of check 1 alone: on a matching telegram CLOSE string the
listener unregisters itself and nothing else happens — navigation is
commented out in the source, and no state hook is written. -/
def listenerCheck1 (s : CtrlState) (m : MsgData) : CtrlState :=
  match m with
  | .strMsg d => if telegramCloseDetected d then { s with listener := false } else s
  | _ => s

/-- The `messageListener` armed in `script.onload`: runs only while
registered; both checks run in sequence (check 2 is not an else-branch),
and each on success calls `window.removeEventListener` (idempotent) and
nothing else. -/
def messageListener (s : CtrlState) (m : MsgData) : CtrlState :=
  if s.listener = false then s
  else if closeAppDetected m then { listenerCheck1 s m with listener := false }
  else listenerCheck1 s m

/-- Asynchronous event delivery for one session of the primary variant.

`scriptLoad` compresses the `onload` handler up to the `await
trigger.show()`: it sets the two intermediate statuses (the last being
`Ready. Loading Manual Entry Form...`), registers the message listener,
invokes `window.Accept` (ghost flag), lets the SDK render into the
container, and leaves the completion promise pending.  A rejection of
`Accept`/`unifiedPayments`/`createTrigger`/`show` is delivered as
`promiseReject` (they share one `catch`); a resolution of `show` as
`promiseResolve`. -/
def step (s : CtrlState) (e : Event) : CtrlState :=
  match e with
  | .scriptLoad =>
    if s.phase = .scriptPending then
      { s with status := readyStatus, listener := true, acceptCalled := true,
               containerEmpty := false, phase := .awaiting }
    else s
  | .scriptError =>
    if s.phase = .scriptPending then
      { s with isError := true, isSuccess := false, status := loadFailStatus,
               phase := .settled }
    else s
  | .promiseResolve _ =>
    if s.phase = .awaiting then
      { s with listener := false, isSuccess := true, isError := false,
               status := successStatus, phase := .settled }
    else s
  | .promiseReject err =>
    if s.phase = .awaiting then
      let s1 := { s with listener := false, phase := .settled }
      if err.reason = some cancelReasonCode then s1
      else { s1 with isError := true, isSuccess := false,
                     status := errPrefix ++ jsErrMessage err }
    else s
  | .message m => messageListener s m

def removeById : List ScriptEl → Nat → List ScriptEl
  | [], _ => []
  | e :: rest, i => if e.id = i then rest else e :: removeById rest i

def resetFields (s : CtrlState) : CtrlState :=
  { s with jwt := [], isLoaded := false, isSuccess := false, isError := false,
           status := waitingStatus, containerEmpty := true }

/-- `handleReset`, primary variant: `document.head.removeChild(sdkRef.current)`
(which throws, modelled as `Except.error`, when the element is not a child
of head), null the ref, reset every state hook, clear the payment
container.  The message listener is not touched: `handleReset` cannot even
name it. -/
def handleReset (s : CtrlState) : Except Unit CtrlState :=
  match s.sdkRef with
  | some i =>
    if s.head.any (fun e => e.id = i) then
      .ok (resetFields { s with head := removeById s.head i, sdkRef := none })
    else .error ()
  | none => .ok (resetFields s)

/-- `getStatusClass`: the component's own classification of the visible
outcome — success, error, or the neutral info class.  There is no
cancelled class. -/
inductive StatusClass where
  | statusSuccess | statusError | statusInfo
deriving DecidableEq

def getStatusClass (s : CtrlState) : StatusClass :=
  if s.isSuccess then .statusSuccess
  else if s.isError then .statusError
  else .statusInfo

/-- `initializeCheckout`, synchronous part, navigate variant: same guards,
then `disposeAccept()`, `clearPaymentContainer()`, removal of any
previously injected SDK script (`removeChild` wrapped in try/catch, a
missing element ignored) before the new script is created and appended. -/
def initializeCheckoutNav (s : CtrlState) : CtrlState :=
  if (trimWs s.jwt).isEmpty then
    { s with isError := true, isSuccess := false, status := pasteErrStatus }
  else
    let s := { s with decodeAttempts := s.decodeAttempts + 1 }
    match getSdkMetadata s.jwt with
    | none => { s with isError := true, isSuccess := false, status := invalidJwtStatus }
    | some m =>
      let s := { s with acceptRef := false, containerEmpty := true }
      let s := { s with isError := false, isSuccess := false, status := loadingStatus }
      let s := match s.sdkRef with
        | some i => { s with head := removeById s.head i, sdkRef := none }
        | none => s
      { s with head := s.head ++ [⟨s.nextId, m.url, m.integrity⟩],
               sdkRef := some s.nextId, nextId := s.nextId + 1,
               isLoaded := true, phase := .scriptPending }

/-! ## Concrete fixtures -/

/-- A well-formed capture-context token: payload
`{"ctx":[{"data":{"clientLibrary":"https://x/sdk.js","clientLibraryIntegrity":"sha-1"}}]}`. -/
def validToken : List Char :=
  ("h.eyJjdHgiOlt7ImRhdGEiOnsiY2xpZW50TGlicmFyeSI6Imh0dHBzOi8veC9zZGsuanMiLCJj" ++
   "bGllbnRMaWJyYXJ5SW50ZWdyaXR5Ijoic2hhLTEifX1dfQ==.s").data

/-- A token whose payload `{"ctx":[{"data":{}}]}` has the full nested path
present but both metadata leaf fields absent. -/
def missingFieldToken : List Char :=
  "h.eyJjdHgiOlt7ImRhdGEiOnt9fV19.s".data

/-- The component as first mounted, with a given textarea content. -/
def mkIdle (tok : List Char) : CtrlState :=
  { jwt := tok, status := waitingStatus, isLoaded := false, isSuccess := false,
    isError := false, sdkRef := none, acceptRef := false, head := [], nextId := 0,
    containerEmpty := true, listener := false, phase := .idleP,
    acceptCalled := false, decodeAttempts := 0 }

/-- A reachable `AwaitingUserInput` state: initialize with the valid token,
then the script loads. -/
def awaitS : CtrlState := step (initializeCheckout (mkIdle validToken)) .scriptLoad

/-- The framed `cybs-telgram` CLOSE message, as seen in the vendor log. -/
def telegramCloseMsg : List Char := "/*cybs-telgram*/\x7b\"event\":\"CLOSE\"\x7d".data

/-! ## Helper lemmas -/

/-- After the session has settled and the listener is unregistered, every
further event is a no-op. -/
lemma step_settled_noop (s : CtrlState) (h1 : s.phase = .settled)
    (h2 : s.listener = false) (e : Event) : step s e = s := by
  cases e <;> simp [step, h1, h2, messageListener]

lemma foldl_step_settled_noop (evs : List Event) (st : CtrlState)
    (hp : st.phase = .settled) (hl : st.listener = false) :
    List.foldl step st evs = st := by
  induction evs with
  | nil => rfl
  | cons e rest ih => rw [List.foldl_cons, step_settled_noop st hp hl e]; exact ih

/-- `sdkRef`, when set, points at a script that is a child of head; all
reachable controller states satisfy this (see the preservation lemmas),
which is why `handleReset`'s `removeChild` never throws in practice. -/
def RefInHead (s : CtrlState) : Prop :=
  ∀ i, s.sdkRef = some i → s.head.any (fun e => e.id = i) = true

lemma refInHead_initializeCheckout (s : CtrlState) (h : RefInHead s) :
    RefInHead (initializeCheckout s) := by
  unfold initializeCheckout
  split
  · exact h
  · cases hm : getSdkMetadata s.jwt with
    | none => simpa [hm] using h
    | some m =>
      intro i hi
      simp [hm] at hi ⊢
      subst hi
      simp

lemma listenerCheck1_preserves_head (s : CtrlState) (m : MsgData) :
    (listenerCheck1 s m).head = s.head := by
  cases m with
  | strMsg d =>
    show (if telegramCloseDetected d then { s with listener := false } else s).head = s.head
    split_ifs <;> rfl
  | objMsg src => rfl
  | nullMsg => rfl

lemma listenerCheck1_preserves_sdkRef (s : CtrlState) (m : MsgData) :
    (listenerCheck1 s m).sdkRef = s.sdkRef := by
  cases m with
  | strMsg d =>
    show (if telegramCloseDetected d then { s with listener := false } else s).sdkRef = s.sdkRef
    split_ifs <;> rfl
  | objMsg src => rfl
  | nullMsg => rfl

lemma messageListener_preserves_head (s : CtrlState) (m : MsgData) :
    (messageListener s m).head = s.head := by
  unfold messageListener
  split_ifs <;> simp [listenerCheck1_preserves_head]

lemma messageListener_preserves_sdkRef (s : CtrlState) (m : MsgData) :
    (messageListener s m).sdkRef = s.sdkRef := by
  unfold messageListener
  split_ifs <;> simp [listenerCheck1_preserves_sdkRef]

lemma step_preserves_head (s : CtrlState) (e : Event) : (step s e).head = s.head := by
  cases e with
  | message m => exact messageListener_preserves_head s m
  | scriptLoad => simp only [step]; split_ifs <;> rfl
  | scriptError => simp only [step]; split_ifs <;> rfl
  | promiseResolve tok => simp only [step]; split_ifs <;> rfl
  | promiseReject err => simp only [step]; split_ifs <;> rfl

lemma step_preserves_sdkRef (s : CtrlState) (e : Event) :
    (step s e).sdkRef = s.sdkRef := by
  cases e with
  | message m => exact messageListener_preserves_sdkRef s m
  | scriptLoad => simp only [step]; split_ifs <;> rfl
  | scriptError => simp only [step]; split_ifs <;> rfl
  | promiseResolve tok => simp only [step]; split_ifs <;> rfl
  | promiseReject err => simp only [step]; split_ifs <;> rfl

lemma refInHead_step (s : CtrlState) (e : Event) (h : RefInHead s) :
    RefInHead (step s e) := by
  intro i hi
  rw [step_preserves_sdkRef] at hi
  rw [step_preserves_head]
  exact h i hi

lemma refInHead_handleReset (s : CtrlState) (s' : CtrlState)
    (h : handleReset s = .ok s') : RefInHead s' := by
  unfold handleReset at h
  split at h
  · split at h
    · cases h; intro i hi; simp [resetFields] at hi
    · cases h
  · cases h; intro i hi
    simp only [resetFields] at hi
    rename_i hr
    rw [hr] at hi
    cases hi

/-! ## Claims -/

/-- C9: for every token that is empty or consists only of whitespace,
`initializeCheckout` sets the error flag and an error status and returns
immediately — the resulting state differs from the incoming one only in
`isError`, `isSuccess` and `status`, so in particular no decode is
attempted (`decodeAttempts` unchanged), no script element is created or
injected (`head`, `nextId`, `sdkRef` unchanged) and no listener is
registered (`listener` unchanged). -/
theorem C9_blank_token_early_return (s : CtrlState)
    (h : (trimWs s.jwt).isEmpty = true) :
    initializeCheckout s =
      { s with isError := true, isSuccess := false, status := pasteErrStatus } := by
  simp [initializeCheckout, h]

/-- C9 witness: a whitespace-only textarea content. -/
theorem C9_blank_token_witness :
    (trimWs (mkIdle "  ".data).jwt).isEmpty = true ∧
    initializeCheckout (mkIdle "  ".data) =
      { mkIdle "  ".data with isError := true, isSuccess := false,
                              status := pasteErrStatus } :=
  ⟨rfl, C9_blank_token_early_return (mkIdle "  ".data) rfl⟩

/-- C10: when the SDK completion promise rejects with reason exactly
`COMPLETE_TRANSACTION_CANCELLED`, the handler returns early after removing
the message listener: the resulting state equals the pre-rejection state
with only `listener` cleared (and the promise marked settled) — `status`,
`isSuccess` and `isError` keep their pre-rejection values and no Cancelled
indication of any kind is written. -/
theorem C10_cancel_rejection_frame (s : CtrlState) (e : JsErr)
    (h1 : s.phase = .awaiting) (h2 : e.reason = some cancelReasonCode) :
    step s (.promiseReject e) = { s with listener := false, phase := .settled } := by
  simp [step, h1, h2]

/-- C10 witness: the documented rejection shape, a plain object with only
the `reason` property, delivered in the reachable awaiting state. -/
theorem C10_cancel_rejection_witness :
    awaitS.phase = .awaiting ∧
    (⟨false, [], some cancelReasonCode⟩ : JsErr).reason = some cancelReasonCode ∧
    step awaitS (.promiseReject ⟨false, [], some cancelReasonCode⟩) =
      { awaitS with listener := false, phase := .settled } :=
  ⟨rfl, rfl, C10_cancel_rejection_frame awaitS ⟨false, [], some cancelReasonCode⟩ rfl rfl⟩

/-- C5 counterexample: rejecting with the recognized cancellation reason
code does not produce a Cancelled terminal outcome.  The component's own
outcome classification (`getStatusClass`) knows only success, error and
the neutral info class; after the recognized rejection the session still
shows the info class with the pre-rejection status text, indistinguishable
from a session with no outcome at all. -/
theorem C5_cancel_not_marked_counterexample :
    getStatusClass (step awaitS (.promiseReject ⟨false, [], some cancelReasonCode⟩)) =
      .statusInfo ∧
    (step awaitS (.promiseReject ⟨false, [], some cancelReasonCode⟩)).isSuccess = false ∧
    (step awaitS (.promiseReject ⟨false, [], some cancelReasonCode⟩)).isError = false ∧
    (step awaitS (.promiseReject ⟨false, [], some cancelReasonCode⟩)).status =
      awaitS.status :=
  ⟨rfl, rfl, rfl, rfl⟩

/-- C5 as amended: the rejection is inspected once; with the recognized
reason code the handler unregisters the listener and returns with the
visible state unchanged (no Cancelled outcome is recorded), and with any
other rejection the outcome is Failed carrying the rejection's message
(`err.message` for an `Error` instance, the fixed fallback otherwise). -/
theorem C5_rejection_classified_amended (s : CtrlState) (e : JsErr)
    (h1 : s.phase = .awaiting) :
    (e.reason = some cancelReasonCode →
      step s (.promiseReject e) = { s with listener := false, phase := .settled }) ∧
    (e.reason ≠ some cancelReasonCode →
      (step s (.promiseReject e)).isError = true ∧
      (step s (.promiseReject e)).isSuccess = false ∧
      (step s (.promiseReject e)).status = errPrefix ++ jsErrMessage e ∧
      (step s (.promiseReject e)).listener = false ∧
      getStatusClass (step s (.promiseReject e)) = .statusError) := by
  constructor
  · intro h2; simp [step, h1, h2]
  · intro h2; simp [step, h1, h2, getStatusClass]

/-- C5 witness: a genuine failure (an `Error` instance without the reason
code) in the reachable awaiting state yields the Failed outcome with the
error's message. -/
theorem C5_rejection_classified_witness :
    awaitS.phase = .awaiting ∧
    (((⟨true, "boom".data, none⟩ : JsErr).reason = some cancelReasonCode →
        step awaitS (.promiseReject ⟨true, "boom".data, none⟩) =
          { awaitS with listener := false, phase := .settled }) ∧
      ((⟨true, "boom".data, none⟩ : JsErr).reason ≠ some cancelReasonCode →
        (step awaitS (.promiseReject ⟨true, "boom".data, none⟩)).isError = true ∧
        (step awaitS (.promiseReject ⟨true, "boom".data, none⟩)).isSuccess = false ∧
        (step awaitS (.promiseReject ⟨true, "boom".data, none⟩)).status =
          errPrefix ++ jsErrMessage ⟨true, "boom".data, none⟩ ∧
        (step awaitS (.promiseReject ⟨true, "boom".data, none⟩)).listener = false ∧
        getStatusClass (step awaitS (.promiseReject ⟨true, "boom".data, none⟩)) =
          .statusError)) :=
  ⟨rfl, C5_rejection_classified_amended awaitS ⟨true, "boom".data, none⟩ rfl⟩

def c1AfterMsg : CtrlState := step awaitS (.message (.objMsg (some closeAppSource)))

def c1Final : CtrlState := step c1AfterMsg (.promiseResolve "tt".data)

/-- C1 counterexample: from the reachable awaiting state, deliver the
side-channel close message first, then let the SDK promise resolve.  The
claim requires the terminal outcome to be Cancelled and the later promise
settlement to be a no-op; instead the resolution changes the state and
produces the Succeeded outcome. -/
theorem C1_close_message_counterexample :
    c1AfterMsg.isSuccess = false ∧ c1Final.isSuccess = true ∧
    getStatusClass c1Final = .statusSuccess ∧ c1Final ≠ c1AfterMsg := by
  refine ⟨rfl, rfl, rfl, fun h => ?_⟩
  have h2 : c1Final.isSuccess = c1AfterMsg.isSuccess := congrArg CtrlState.isSuccess h
  rw [show c1Final.isSuccess = true from rfl,
      show c1AfterMsg.isSuccess = false from rfl] at h2
  exact Bool.noConfusion h2

/-- C1 as amended: if the side-channel close message is delivered before
the SDK promise settles, its only effect is to unregister the listener
(so later messages are no-ops), no Cancelled outcome is recorded, and the
promise's eventual settlement still takes full effect — a later resolution
yields the Succeeded outcome. -/
theorem C1_close_message_amended (s : CtrlState) (m' : MsgData) (tok : List Char)
    (h1 : s.phase = .awaiting) (h2 : s.listener = true) :
    step s (.message (.objMsg (some closeAppSource))) = { s with listener := false } ∧
    step { s with listener := false } (.message m') = { s with listener := false } ∧
    (step { s with listener := false } (.promiseResolve tok)).isSuccess = true ∧
    getStatusClass (step { s with listener := false } (.promiseResolve tok)) =
      .statusSuccess := by
  refine ⟨?_, ?_, ?_, ?_⟩
  · simp [step, messageListener, closeAppDetected, listenerCheck1, h2]
  · simp [step, messageListener]
  · simp [step, h1]
  · simp [step, h1, getStatusClass]

/-- C1 witness: the amended statement at the reachable awaiting state,
with a second close message and a resolution token. -/
theorem C1_close_message_amended_witness :
    awaitS.phase = .awaiting ∧ awaitS.listener = true ∧
    (step awaitS (.message (.objMsg (some closeAppSource))) =
        { awaitS with listener := false } ∧
      step { awaitS with listener := false } (.message (.objMsg (some closeAppSource))) =
        { awaitS with listener := false } ∧
      (step { awaitS with listener := false } (.promiseResolve "tt".data)).isSuccess =
        true ∧
      getStatusClass (step { awaitS with listener := false }
        (.promiseResolve "tt".data)) = .statusSuccess) :=
  ⟨rfl, rfl,
    C1_close_message_amended awaitS (.objMsg (some closeAppSource)) "tt".data rfl rfl⟩

/-- C2 counterexample: controller-level reset does not unregister the
listener.  From the reachable awaiting state (listener armed),
`handleReset` succeeds but the listener is still registered afterwards —
the reset path breaks the claimed arm/dispose pairing. -/
theorem C2_reset_keeps_listener_counterexample :
    awaitS.listener = true ∧
    (handleReset awaitS).map (fun st => st.listener) = .ok true :=
  ⟨rfl, rfl⟩

/-- C2 as amended: the success path, the failure path (both rejection
branches) and both cancellation-via-message shapes each unregister the
listener; only the controller-level reset fails to. -/
theorem C2_unregister_paths_amended (s : CtrlState) (e : JsErr) (tok : List Char)
    (h1 : s.phase = .awaiting) (h2 : s.listener = true) :
    (step s (.promiseResolve tok)).listener = false ∧
    (step s (.promiseReject e)).listener = false ∧
    (step s (.message (.objMsg (some closeAppSource)))).listener = false ∧
    (step s (.message (.strMsg telegramCloseMsg))).listener = false := by
  have htel : telegramCloseDetected telegramCloseMsg = true := by rfl
  refine ⟨?_, ?_, ?_, ?_⟩
  · simp [step, h1]
  · simp only [step, h1, if_pos]
    split_ifs <;> rfl
  · simp [step, messageListener, closeAppDetected, listenerCheck1, h2]
  · simp [step, messageListener, closeAppDetected, listenerCheck1, h2, htel]

/-- C2 witness: the amended statement at the reachable awaiting state with
a concrete rejection and token. -/
theorem C2_unregister_paths_witness :
    awaitS.phase = .awaiting ∧ awaitS.listener = true ∧
    ((step awaitS (.promiseResolve "tt".data)).listener = false ∧
      (step awaitS (.promiseReject ⟨true, "boom".data, none⟩)).listener = false ∧
      (step awaitS (.message (.objMsg (some closeAppSource)))).listener = false ∧
      (step awaitS (.message (.strMsg telegramCloseMsg))).listener = false) :=
  ⟨rfl, rfl, C2_unregister_paths_amended awaitS ⟨true, "boom".data, none⟩ "tt".data rfl rfl⟩

def c3SecondInit : CtrlState :=
  initializeCheckout (step (initializeCheckout (mkIdle validToken)) .scriptError)

/-- C3 counterexample: in the primary variant, invoking
`initializeCheckout` again without an intervening reset (reachable through
the UI after a script-load failure, which re-enables the button) appends a
second script element while the first is still attached: two
loaded-resource handles are alive at once, and only the newest is tracked
by `sdkRef`, so the claimed unconditional retirement does not happen. -/
theorem C3_second_init_counterexample :
    c3SecondInit.head.length = 2 ∧ c3SecondInit.sdkRef = some 1 :=
  ⟨rfl, rfl⟩

lemma removeById_of_map_singleton (l : List ScriptEl) (i : Nat)
    (h : l.map (fun e => e.id) = [i]) : removeById l i = [] := by
  cases l with
  | nil => simp at h
  | cons e rest =>
    simp only [List.map_cons, List.cons.injEq] at h
    obtain ⟨hid, hrest⟩ := h
    have : rest = [] := List.map_eq_nil_iff.mp hrest
    subst this
    simp [removeById, hid]

/-- C3 as amended: the navigate variant does retire the previous handle —
its `initializeCheckout`, on a decodable non-blank token and from any
state whose head holds exactly the tracked script (or none), leaves
exactly the one new script attached and tracked.  The primary variant
omits this removal (see the counterexample). -/
theorem C3_nav_retires_previous_amended (s : CtrlState) (m : SdkMetadata)
    (h1 : (trimWs s.jwt).isEmpty = false)
    (h2 : getSdkMetadata s.jwt = some m)
    (h3 : s.head.map (fun e => e.id) = (s.sdkRef.map (fun i => [i])).getD []) :
    (initializeCheckoutNav s).head.map (fun e => e.id) = [s.nextId] ∧
    (initializeCheckoutNav s).sdkRef = some s.nextId := by
  cases hr : s.sdkRef with
  | none =>
    rw [hr] at h3
    have hempty : s.head = [] := List.map_eq_nil_iff.mp h3
    simp [initializeCheckoutNav, h1, h2, hr, hempty]
  | some i =>
    rw [hr] at h3
    simp only [Option.map_some', Option.getD_some] at h3
    have hrem := removeById_of_map_singleton s.head i h3
    simp [initializeCheckoutNav, h1, h2, hr, hrem]

/-- C3 witness: the amended statement at the reachable awaiting state
(`sdkRef` tracks script 0, which is the only head child). -/
theorem C3_nav_retires_previous_witness :
    (trimWs awaitS.jwt).isEmpty = false ∧
    getSdkMetadata awaitS.jwt =
      some ⟨some (.str "https://x/sdk.js".data), some (.str "sha-1".data)⟩ ∧
    awaitS.head.map (fun e => e.id) = (awaitS.sdkRef.map (fun i => [i])).getD [] ∧
    ((initializeCheckoutNav awaitS).head.map (fun e => e.id) = [awaitS.nextId] ∧
      (initializeCheckoutNav awaitS).sdkRef = some awaitS.nextId) :=
  ⟨rfl, rfl, rfl,
    C3_nav_retires_previous_amended awaitS
      ⟨some (.str "https://x/sdk.js".data), some (.str "sha-1".data)⟩ rfl rfl rfl⟩

/-- C4 counterexample: a token whose payload has the nested path present
but both leaf fields absent decodes to a record with both fields
`undefined` — a partial `SdkMetadata`, with no `MissingMetadata` failure.
The second conjunct states directly that the decoded value is neither a
failure nor a record of two non-empty strings. -/
theorem C4_partial_metadata_counterexample :
    getSdkMetadata missingFieldToken = some ⟨none, none⟩ ∧
    (∀ u i, getSdkMetadata missingFieldToken =
        some ⟨some (.str u), some (.str i)⟩ → False) := by
  refine ⟨rfl, fun u i h => ?_⟩
  rw [show getSdkMetadata missingFieldToken = some ⟨none, none⟩ from rfl] at h
  have h2 := Option.some.inj h
  injection h2 with hu hi
  exact Option.noConfusion hu

/-- C4 as amended: decoding fails as a unit (`null`) when a stage throws —
in particular every token without a second dot-segment fails — but when
the nested `data` object is reachable, the two leaf fields are extracted
with no presence or non-emptiness check, so a partial `SdkMetadata`
(absent or empty fields) can be returned (see the counterexample). -/
theorem C4_short_token_fails_amended (t : List Char)
    (h : (splitDot t).length ≤ 1) : getSdkMetadata t = none := by
  have h2 : (splitDot t)[1]? = none := List.getElem?_eq_none h
  simp [getSdkMetadata, h2]

/-- C4 witness: a one-segment token. -/
theorem C4_short_token_witness :
    (splitDot "x".data).length ≤ 1 ∧ getSdkMetadata "x".data = none :=
  ⟨by decide, C4_short_token_fails_amended "x".data (by decide)⟩

/-- C8 counterexample: the "missing metadata" disjunct fails — a token
whose payload lacks the metadata leaf fields does not make `decode` fail;
`initializeCheckout` proceeds past the guard, injects the script (a
resource load is attempted) and reports no error. -/
theorem C8_missing_metadata_counterexample :
    (getSdkMetadata missingFieldToken).isSome = true ∧
    (initializeCheckout (mkIdle missingFieldToken)).head.length = 1 ∧
    (initializeCheckout (mkIdle missingFieldToken)).isError = false :=
  ⟨rfl, rfl, rfl⟩

/-- C8 as amended: for every non-blank token on which `decode` does fail
(fewer than two dot-segments, invalid base64 or JSON, or an unreachable
metadata path — not merely absent leaf fields), `initializeCheckout` ends
the session Failed with the invalid-structure status and touches nothing
else: no script is created or injected, no listener registered, and only
the decode-attempt counter moves. -/
theorem C8_decode_failure_no_load_amended (s : CtrlState)
    (h1 : (trimWs s.jwt).isEmpty = false)
    (h2 : getSdkMetadata s.jwt = none) :
    initializeCheckout s =
      { s with decodeAttempts := s.decodeAttempts + 1, isError := true,
               isSuccess := false, status := invalidJwtStatus } := by
  simp [initializeCheckout, h1, h2]

/-- C8 witness: end-to-end scenario C, the token missing the payload
segment. -/
theorem C8_decode_failure_witness :
    (trimWs (mkIdle "onlyonepart".data).jwt).isEmpty = false ∧
    getSdkMetadata (mkIdle "onlyonepart".data).jwt = none ∧
    initializeCheckout (mkIdle "onlyonepart".data) =
      { mkIdle "onlyonepart".data with
          decodeAttempts := (mkIdle "onlyonepart".data).decodeAttempts + 1,
          isError := true, isSuccess := false, status := invalidJwtStatus } :=
  ⟨rfl, rfl, C8_decode_failure_no_load_amended (mkIdle "onlyonepart".data) rfl rfl⟩

/-- C6: `handleReset` from any state whose tracked script (if any) is a
head child — an invariant of every reachable state, by the `refInHead`
preservation lemmas — succeeds without throwing, leaves the controller
Idle (blank textarea, waiting status, all flags cleared), holds no
resource handle, clears the render surface, and is idempotent: a second
consecutive call returns the same state unchanged. -/
theorem C6_reset_idle_idempotent (s : CtrlState) (h : RefInHead s) :
    ∃ s', handleReset s = .ok s' ∧
      s'.jwt = [] ∧ s'.status = waitingStatus ∧ s'.isLoaded = false ∧
      s'.isSuccess = false ∧ s'.isError = false ∧ s'.sdkRef = none ∧
      s'.containerEmpty = true ∧ handleReset s' = .ok s' := by
  cases hr : s.sdkRef with
  | none =>
    refine ⟨resetFields s, ?_, rfl, rfl, rfl, rfl, rfl, ?_, rfl, ?_⟩
    · simp [handleReset, hr]
    · show s.sdkRef = none
      exact hr
    · show handleReset (resetFields s) = .ok (resetFields s)
      simp [handleReset, resetFields, hr]
  | some i =>
    have hin := h i hr
    refine ⟨resetFields { s with head := removeById s.head i, sdkRef := none },
      ?_, rfl, rfl, rfl, rfl, rfl, rfl, rfl, ?_⟩
    · simp [handleReset, hr, hin]
    · simp [handleReset, resetFields]

/-- C6 witness: reset from the reachable mid-flight awaiting state. -/
theorem C6_reset_witness :
    RefInHead awaitS ∧
    (∃ s', handleReset awaitS = .ok s' ∧
      s'.jwt = [] ∧ s'.status = waitingStatus ∧ s'.isLoaded = false ∧
      s'.isSuccess = false ∧ s'.isError = false ∧ s'.sdkRef = none ∧
      s'.containerEmpty = true ∧ handleReset s' = .ok s') :=
  have hrih : RefInHead awaitS := fun i hi => by
    have h0 : (0 : Nat) = i := Option.some.inj (show some 0 = some i from hi)
    cases h0
    rfl
  ⟨hrih, C6_reset_idle_idempotent awaitS hrih⟩

/-- C7: a failed resource load (the browser's subresource-integrity
mismatch or a network failure, both delivered as the script's `onerror`
signal) drives the controller to the Failed terminal state with the
SDK-failed-to-load status, and `window.Accept` is never invoked for that
session: every later event of the session is a no-op on the settled
state, so the ghost `acceptCalled` flag stays false forever. -/
theorem C7_load_failure_no_accept (s : CtrlState) (evs : List Event)
    (h1 : s.phase = .scriptPending) (h2 : s.acceptCalled = false)
    (h3 : s.listener = false) :
    (step s .scriptError).isError = true ∧
    getStatusClass (step s .scriptError) = .statusError ∧
    (step s .scriptError).status = loadFailStatus ∧
    (step s .scriptError).acceptCalled = false ∧
    List.foldl step (step s .scriptError) evs = step s .scriptError := by
  have hE : step s .scriptError =
      { s with isError := true, isSuccess := false, status := loadFailStatus,
               phase := .settled } := by
    simp [step, h1]
  refine ⟨?_, ?_, ?_, ?_, ?_⟩
  · rw [hE]
  · rw [hE]; simp [getStatusClass]
  · rw [hE]
  · rw [hE]; exact h2
  · exact foldl_step_settled_noop evs _ (by rw [hE]) (by rw [hE]; exact h3)

/-- C7 witness: end-to-end scenario D — initialize with the valid token,
deliver the load-failure signal, then further events (a stray promise
settlement and a stray message) which are all no-ops. -/
theorem C7_load_failure_witness :
    (initializeCheckout (mkIdle validToken)).phase = .scriptPending ∧
    (initializeCheckout (mkIdle validToken)).acceptCalled = false ∧
    (initializeCheckout (mkIdle validToken)).listener = false ∧
    ((step (initializeCheckout (mkIdle validToken)) .scriptError).isError = true ∧
      getStatusClass (step (initializeCheckout (mkIdle validToken)) .scriptError) =
        .statusError ∧
      (step (initializeCheckout (mkIdle validToken)) .scriptError).status =
        loadFailStatus ∧
      (step (initializeCheckout (mkIdle validToken)) .scriptError).acceptCalled =
        false ∧
      List.foldl step (step (initializeCheckout (mkIdle validToken)) .scriptError)
          [.promiseResolve "tt".data, .message (.objMsg (some closeAppSource))] =
        step (initializeCheckout (mkIdle validToken)) .scriptError) :=
  ⟨rfl, rfl, rfl,
    C7_load_failure_no_accept (initializeCheckout (mkIdle validToken))
      [.promiseResolve "tt".data, .message (.objMsg (some closeAppSource))]
      rfl rfl rfl⟩
